import Mathlib

/-!
# UpdateCheckerGUI: the main window of the sample GUI

A shallow embedding of `src/UpdateCheckerGUI/MainWindow.cpp`.

The window is a record of its widgets, the live `ThreadController` objects it
is the parent of, the live results dialogs it is the parent of, and the
history of the calls it made on the worker interface.  `new` hands out an
address that no live object has.

Every member function becomes a function on that record.  Three things a
member function can do besides returning are kept apart in `Outcome`:
returning, stopping at a failed `assert` (the C library calls `abort`), and
undefined behaviour (reading `m_releases[0]` of an empty list).

What the file takes from outside is a parameter:
* the build (`_DEBUG`, `NDEBUG`, and what the identifiers `major`, `minor`,
  `patch`, `build` of line 170 denote: the file declares none of them);
* whether each `connect` call succeeds;
* the widget state left by `setupUi`.

Strings are sequences of characters.  `std::string::c_str` is read by
`QString::append(const char*)` up to the first NUL character, and the
conversion between the encodings of `std::string` and `QString` is the
identity on characters.
-/

namespace UpdateCheckerGUI

/-! ## The result payload (declared in UpdateCheckApi.h) -/

/-- Modelled from the spec: the release descriptor of `UpdateCheckApi.h`, a
header that is not among the sources; "release descriptors each carrying at
least a title string".  The code reads the field `m_title`, a `std::string`. -/
structure ReleaseInfo where
  m_title : String
deriving DecidableEq

/-- Modelled from the spec: the update information of `UpdateCheckApi.h`; "a
flag indicating availability plus an ordered list of release descriptors".
The code reads `m_isUpdateAvailable` and `m_releases`. -/
structure UpdateInfo where
  m_isUpdateAvailable : Bool
  m_releases : List ReleaseInfo
deriving DecidableEq

/-- Modelled from the spec: the result payload of `UpdateCheckApi.h`; "a
success flag, and, when an update exists, a flag indicating availability plus
an ordered list of release descriptors".  The code reads `wasCheckSuccessful`
and `updateInfo`. -/
structure Results where
  wasCheckSuccessful : Bool
  updateInfo : UpdateInfo
deriving DecidableEq

/-! ## Strings -/

/-- A `QString`: a sequence of characters. -/
abbrev QString := String

/-- A C string as its reader sees it: the characters before the terminator. -/
abbrev CString := List Char

/-- The C string `std::string::c_str` points at: the characters of the string
followed by a NUL, so a reader stops at the first NUL character of the string
itself when it has one. -/
def c_str (s : String) : CString :=
  s.data.takeWhile (fun c => c != Char.ofNat 0)

/-- The call `QString::append(const char*)`. -/
def QString.append (q : QString) (str : CString) : QString :=
  q ++ String.mk str

/-! ## Constants of the file (lines 17 to 23) -/

def MAJOR : Nat := 1
def MINOR : Nat := 0
def PATCH : Nat := 0
def BUILD : Nat := 0

def UPDATECHECKURL : QString := "."
def UPDATECHECKASSET : QString := "UpdateCheckerGUI-updates.json"

/-! ## The build -/

/-- What the preprocessor and the surrounding headers fix before the file is
compiled: whether `_DEBUG` is defined, whether `NDEBUG` is defined (then
`assert` expands to nothing), and the values of the identifiers `major`,
`minor`, `patch`, `build` that line 170 names and the file does not declare. -/
structure Build where
  DEBUG : Bool
  NDEBUG : Bool
  major : Nat
  minor : Nat
  patch : Nat
  build : Nat
deriving DecidableEq

/-! ## Widgets and objects -/

/-- The slots this file connects to a button's `clicked` signal. -/
inductive ClickSlot where
  | ManualCheckForUpdatesButtonClicked
  | QDialog_show (pResultsDialog : Nat)
deriving DecidableEq

structure QPushButton where
  text : QString
  enabled : Bool
  visible : Bool
  clicked : List ClickSlot
deriving DecidableEq

structure QCheckBox where
  checked : Bool
deriving DecidableEq

/-- The widgets of `ui_MainWindow.h` that the file touches. -/
structure Ui_MainWindow where
  checkForUpdatesOnStartupCheckBox : QCheckBox
  checkForUpdatesOnStartupCheckBoxWithNotification : QCheckBox
  newVersionAvailablePushButton : QPushButton
  checkForUpdatesPushButton : QPushButton
deriving DecidableEq

/-- The slots this file connects to `CheckForUpdatesComplete`. -/
inductive CompleteSlot where
  | ShowResultsDialog
  | NotifyOfNewVersion
deriving DecidableEq

/-- A live `UpdateCheck::ThreadController`: its address, the four version
components it was constructed with, the slots connected to its
`CheckForUpdatesComplete` signal, and the `StartCheckForUpdates` calls made on
it (base location, asset name), oldest first. -/
structure ThreadController where
  address : Nat
  major : Nat
  minor : Nat
  patch : Nat
  build : Nat
  CheckForUpdatesComplete : List CompleteSlot
  started : List (QString × QString)
deriving DecidableEq

/-- A live `UpdateCheckResultsDialog`: its address, whether its parent is the
main window, whether `Qt::WA_DeleteOnClose` is set, the payload given to
`SetResults`, and whether `show` was called. -/
structure UpdateCheckResultsDialog where
  address : Nat
  parentIsMainWindow : Bool
  WA_DeleteOnClose : Bool
  results : Option Results
  shown : Bool
deriving DecidableEq

/-- A call the window makes on the worker interface. -/
inductive Call where
  | construct (p major minor patch build : Nat)
  | connectComplete (p : Nat) (slot : CompleteSlot) (connected : Bool)
  | StartCheckForUpdates (p : Nat) (url asset : QString)
  | delete (p : Nat)
deriving DecidableEq

/-- The main window: its widgets, the live workers and dialogs constructed
with the window as parent (oldest first), and the calls made so far on the
worker interface (oldest first). -/
structure MainWindow where
  ui : Ui_MainWindow
  threads : List ThreadController
  dialogs : List UpdateCheckResultsDialog
  calls : List Call
deriving DecidableEq

/-- The largest address among live objects, 0 when there is none. -/
def maxAddress (addresses : List Nat) : Nat :=
  addresses.foldr max 0

/-- The address `new` returns: one that no live object has. -/
def MainWindow.freshAddress (self : MainWindow) : Nat :=
  maxAddress (self.threads.map (fun t => t.address)
    ++ self.dialogs.map (fun d => d.address)) + 1

/-- How a call of a member function ends. -/
inductive Outcome (σ : Type) where
  | returned (self : σ)
  | assertFailed (self : σ)
  | undefinedBehaviour
deriving DecidableEq

/-- Sequencing: what follows a call runs only when the call returned. -/
def Outcome.bind {σ : Type} (o : Outcome σ) (k : σ → Outcome σ) : Outcome σ :=
  match o with
  | .returned self => k self
  | .assertFailed self => .assertFailed self
  | .undefinedBehaviour => .undefinedBehaviour

/-- The macro `assert(cond)` followed by the rest of the function: nothing
when `NDEBUG` is defined, otherwise the program stops when `cond` is false. -/
def cassert {σ : Type} (b : Build) (cond : Bool) (self : σ) (rest : σ → Outcome σ) :
    Outcome σ :=
  if b.NDEBUG || cond then rest self else .assertFailed self

/-! ## Operations on the objects -/

/-- The expression `new UpdateCheck::ThreadController(this, major, minor, patch, build)`:
a fresh worker, child of the window. -/
def MainWindow.newThreadController (self : MainWindow) (major minor patch build : Nat) :
    MainWindow × Nat :=
  ({ self with
      threads := self.threads ++
        [{ address := self.freshAddress, major := major, minor := minor, patch := patch,
           build := build, CheckForUpdatesComplete := [], started := [] }]
      calls := self.calls ++ [.construct self.freshAddress major minor patch build] },
   self.freshAddress)

/-- The call `connect(pBackgroundThread, &ThreadController::CheckForUpdatesComplete, this, slot)`;
`ok` is whether the toolkit establishes the connection. -/
def MainWindow.connectComplete (self : MainWindow) (pBackgroundThread : Nat)
    (slot : CompleteSlot) (ok : Bool) : MainWindow × Bool :=
  if ok then
    ({ self with
        threads := self.threads.map fun t =>
          if t.address = pBackgroundThread then
            { t with CheckForUpdatesComplete := t.CheckForUpdatesComplete ++ [slot] }
          else t
        calls := self.calls ++ [.connectComplete pBackgroundThread slot true] },
     true)
  else
    ({ self with calls := self.calls ++ [.connectComplete pBackgroundThread slot false] },
     false)

/-- The call `pBackgroundThread->StartCheckForUpdates(url, asset)`: the check
runs in the background, the call itself only starts it. -/
def MainWindow.StartCheckForUpdates (self : MainWindow) (pBackgroundThread : Nat)
    (url asset : QString) : MainWindow :=
  { self with
      threads := self.threads.map fun t =>
        if t.address = pBackgroundThread then
          { t with started := t.started ++ [(url, asset)] }
        else t
      calls := self.calls ++ [.StartCheckForUpdates pBackgroundThread url asset] }

/-- The statement `delete pThread` for a worker. -/
def MainWindow.deleteThread (self : MainWindow) (pThread : Nat) : MainWindow :=
  { self with
      threads := self.threads.filter fun t => t.address != pThread
      calls := self.calls ++ [.delete pThread] }

/-- The expression `new UpdateCheckResultsDialog(this)`. -/
def MainWindow.newResultsDialog (self : MainWindow) : MainWindow × Nat :=
  ({ self with
      dialogs := self.dialogs ++
        [{ address := self.freshAddress, parentIsMainWindow := true,
           WA_DeleteOnClose := false, results := none, shown := false }] },
   self.freshAddress)

/-- Apply `f` to the dialog at `pResultsDialog`. -/
def MainWindow.onDialog (self : MainWindow) (pResultsDialog : Nat)
    (f : UpdateCheckResultsDialog → UpdateCheckResultsDialog) : MainWindow :=
  { self with
      dialogs := self.dialogs.map fun d => if d.address = pResultsDialog then f d else d }

/-- Apply `f` to `ui->newVersionAvailablePushButton`. -/
def MainWindow.onNewVersionAvailablePushButton (self : MainWindow)
    (f : QPushButton → QPushButton) : MainWindow :=
  { self with
      ui := { self.ui with
        newVersionAvailablePushButton := f self.ui.newVersionAvailablePushButton } }

/-- Apply `f` to `ui->checkForUpdatesPushButton`. -/
def MainWindow.onCheckForUpdatesPushButton (self : MainWindow)
    (f : QPushButton → QPushButton) : MainWindow :=
  { self with
      ui := { self.ui with
        checkForUpdatesPushButton := f self.ui.checkForUpdatesPushButton } }

/-- The four version components a check path passes to the worker's
constructor in the startup paths (lines 75-79 and 113-117). -/
def startupVersion (b : Build) : Nat × Nat × Nat × Nat :=
  if b.DEBUG then (0, 0, 0, 0) else (MAJOR, MINOR, PATCH, BUILD)

/-- The four version components the manual path passes to the worker's
constructor (lines 167-171): the identifiers on line 170 are `major`, `minor`,
`patch`, `build`. -/
def manualVersion (b : Build) : Nat × Nat × Nat × Nat :=
  if b.DEBUG then (0, 0, 0, 0) else (b.major, b.minor, b.patch, b.build)

/-! ## The member functions of MainWindow -/

/-- Lines 70-88. -/
def MainWindow.SetupCheckForUpdatesOnStartup (b : Build) (connectOk : Bool)
    (self : MainWindow) : Outcome MainWindow :=
  if self.ui.checkForUpdatesOnStartupCheckBox.checked then
    let v := startupVersion b
    let (self, pBackgroundThread) := self.newThreadController v.1 v.2.1 v.2.2.1 v.2.2.2
    let (self, isCompleteConnected) :=
      self.connectComplete pBackgroundThread .ShowResultsDialog connectOk
    cassert b isCompleteConnected self fun self =>
      .returned (self.StartCheckForUpdates pBackgroundThread UPDATECHECKURL UPDATECHECKASSET)
  else
    .returned self

/-- Lines 106-133. -/
def MainWindow.SetupCheckForUpdatesOnStartupWithNotification (b : Build) (connectOk : Bool)
    (self : MainWindow) : Outcome MainWindow :=
  let self := self.onNewVersionAvailablePushButton fun btn => { btn with enabled := false }
  if self.ui.checkForUpdatesOnStartupCheckBoxWithNotification.checked then
    let v := startupVersion b
    let (self, pBackgroundThread) := self.newThreadController v.1 v.2.1 v.2.2.1 v.2.2.2
    let (self, isCompleteConnected) :=
      self.connectComplete pBackgroundThread .NotifyOfNewVersion connectOk
    cassert b isCompleteConnected self fun self =>
      if !isCompleteConnected then
        .returned (self.deleteThread pBackgroundThread)
      else
        .returned (self.StartCheckForUpdates pBackgroundThread UPDATECHECKURL UPDATECHECKASSET)
  else
    .returned self

/-- Lines 142-151; `connectOk` is whether the toolkit connects the button. -/
def MainWindow.SetupManualCheckForUpdates (b : Build) (connectOk : Bool)
    (self : MainWindow) : Outcome MainWindow :=
  let (self, isButtonConnected) :=
    if connectOk then
      (self.onCheckForUpdatesPushButton fun btn =>
        { btn with clicked := btn.clicked ++ [.ManualCheckForUpdatesButtonClicked] }, true)
    else (self, false)
  cassert b isButtonConnected self fun self =>
    if !isButtonConnected then
      .returned (self.onCheckForUpdatesPushButton fun btn => { btn with enabled := false })
    else
      .returned self

/-- Lines 165-184. -/
def MainWindow.ManualCheckForUpdatesButtonClicked (b : Build) (connectOk : Bool)
    (self : MainWindow) : Outcome MainWindow :=
  let v := manualVersion b
  let (self, pBackgroundThread) := self.newThreadController v.1 v.2.1 v.2.2.1 v.2.2.2
  let (self, isCheckCompleteConnected) :=
    self.connectComplete pBackgroundThread .ShowResultsDialog connectOk
  cassert b isCheckCompleteConnected self fun self =>
    if !isCheckCompleteConnected then
      .returned (self.deleteThread pBackgroundThread)
    else
      .returned (self.StartCheckForUpdates pBackgroundThread UPDATECHECKURL UPDATECHECKASSET)

/-- The last statement of both completion handlers (lines 216-220, 240-244):
`if (pThread != nullptr) delete pThread;`, with `none` for the null pointer. -/
def MainWindow.deleteIfNotNull (self : MainWindow) (pThread : Option Nat) : MainWindow :=
  match pThread with
  | some p => self.deleteThread p
  | none => self

/-- Lines 191-221.  The read `m_releases[0]` of an empty list is undefined
behaviour.  The `connect` of line 213, whose result the code does not look at,
is taken to succeed. -/
def MainWindow.NotifyOfNewVersion (self : MainWindow) (pThread : Option Nat)
    (updateCheckResults : Results) : Outcome MainWindow :=
  let body : Outcome MainWindow :=
    if updateCheckResults.wasCheckSuccessful
        && updateCheckResults.updateInfo.m_isUpdateAvailable then
      match updateCheckResults.updateInfo.m_releases[0]? with
      | none => .undefinedBehaviour
      | some release =>
        let buttonText : QString := "New version available: "
        let buttonText := QString.append buttonText (c_str release.m_title)
        let buttonText :=
          QString.append buttonText "\nClick here for more information.".data
        let self := self.onNewVersionAvailablePushButton fun btn =>
          { btn with text := buttonText }
        let self := self.onNewVersionAvailablePushButton fun btn =>
          { btn with enabled := true }
        let self := self.onNewVersionAvailablePushButton fun btn =>
          { btn with visible := true }
        let (self, pResultsDialog) := self.newResultsDialog
        let self := self.onDialog pResultsDialog fun d =>
          { d with results := some updateCheckResults }
        let self := self.onNewVersionAvailablePushButton fun btn =>
          { btn with clicked := btn.clicked ++ [.QDialog_show pResultsDialog] }
        .returned self
    else
      .returned self
  body.bind fun self => .returned (self.deleteIfNotNull pThread)

/-- Lines 228-245. -/
def MainWindow.ShowResultsDialog (self : MainWindow) (pThread : Option Nat)
    (updateCheckResults : Results) : Outcome MainWindow :=
  let body : Outcome MainWindow :=
    if updateCheckResults.wasCheckSuccessful
        && updateCheckResults.updateInfo.m_isUpdateAvailable then
      let (self, pResultsDialog) := self.newResultsDialog
      let self := self.onDialog pResultsDialog fun d => { d with WA_DeleteOnClose := true }
      let self := self.onDialog pResultsDialog fun d =>
        { d with results := some updateCheckResults }
      let self := self.onDialog pResultsDialog fun d => { d with shown := true }
      .returned self
    else
      .returned self
  body.bind fun self => .returned (self.deleteIfNotNull pThread)

/-- Lines 30-44: the constructor `MainWindow::MainWindow`.  `afterSetupUi` is
the widget state `setupUi` leaves, and the three booleans say whether the
`connect` call of each setup function succeeds.  The checks started here
complete later, from the event loop, so no completion handler runs inside the
constructor. -/
def MainWindow.ctor (b : Build) (afterSetupUi : Ui_MainWindow)
    (connectOk1 connectOk2 connectOk3 : Bool) : Outcome MainWindow :=
  let self : MainWindow :=
    { ui := afterSetupUi, threads := [], dialogs := [], calls := [] }
  let self : MainWindow :=
    { self with ui := { self.ui with checkForUpdatesOnStartupCheckBox := { checked := true } } }
  let self : MainWindow :=
    { self with
        ui := { self.ui with
          checkForUpdatesOnStartupCheckBoxWithNotification := { checked := true } } }
  (MainWindow.SetupCheckForUpdatesOnStartup b connectOk1 self).bind fun self =>
  (MainWindow.SetupCheckForUpdatesOnStartupWithNotification b connectOk2 self).bind fun self =>
  MainWindow.SetupManualCheckForUpdates b connectOk3 self

/-- One slot connected to a `clicked` signal runs: `QDialog::show` on the
dialog it was connected for, or the window's manual check slot. -/
def MainWindow.runClickSlot (b : Build) (connectOk : Bool) (self : MainWindow) :
    ClickSlot → Outcome MainWindow
  | .QDialog_show pResultsDialog =>
    .returned (self.onDialog pResultsDialog fun d => { d with shown := true })
  | .ManualCheckForUpdatesButtonClicked =>
    MainWindow.ManualCheckForUpdatesButtonClicked b connectOk self

/-- The toolkit emitting `clicked`: the connected slots run in connection
order. -/
def MainWindow.emitClicked (b : Build) (connectOk : Bool) :
    List ClickSlot → MainWindow → Outcome MainWindow
  | [], self => .returned self
  | slot :: rest, self =>
    (self.runClickSlot b connectOk slot).bind (MainWindow.emitClicked b connectOk rest)

/-- The user clicking `ui->newVersionAvailablePushButton`. -/
def MainWindow.clickNewVersionAvailablePushButton (b : Build) (connectOk : Bool)
    (self : MainWindow) : Outcome MainWindow :=
  MainWindow.emitClicked b connectOk self.ui.newVersionAvailablePushButton.clicked self

/-! ## Sample inputs -/

/-- A title with a NUL character in it: `v2`, NUL, `x`. -/
def titleWithNul : String := String.mk [Char.ofNat 118, Char.ofNat 50, Char.ofNat 0, Char.ofNat 120]

def sampleButton : QPushButton :=
  { text := "", enabled := true, visible := true, clicked := [] }

def sampleUi : Ui_MainWindow :=
  { checkForUpdatesOnStartupCheckBox := { checked := false }
    checkForUpdatesOnStartupCheckBoxWithNotification := { checked := false }
    newVersionAvailablePushButton := sampleButton
    checkForUpdatesPushButton := sampleButton }

def checkedUi : Ui_MainWindow :=
  { sampleUi with
      checkForUpdatesOnStartupCheckBox := { checked := true }
      checkForUpdatesOnStartupCheckBoxWithNotification := { checked := true } }

/-- A window with one live worker at address 7, already started. -/
def sampleWindow : MainWindow :=
  { ui := sampleUi
    threads := [{ address := 7, major := 1, minor := 0, patch := 0, build := 0,
                  CheckForUpdatesComplete := [.NotifyOfNewVersion],
                  started := [(UPDATECHECKURL, UPDATECHECKASSET)] }]
    dialogs := []
    calls := [] }

def checkedWindow : MainWindow := { sampleWindow with ui := checkedUi }

def releaseBuild : Build :=
  { DEBUG := false, NDEBUG := true, major := 2, minor := 3, patch := 4, build := 5 }

def assertingBuild : Build :=
  { DEBUG := true, NDEBUG := false, major := 2, minor := 3, patch := 4, build := 5 }

def resultsV2 : Results :=
  { wasCheckSuccessful := true
    updateInfo := { m_isUpdateAvailable := true, m_releases := [{ m_title := "v2.0" }] } }

def resultsNoRelease : Results :=
  { wasCheckSuccessful := true
    updateInfo := { m_isUpdateAvailable := true, m_releases := [] } }

def resultsFailed : Results :=
  { wasCheckSuccessful := false
    updateInfo := { m_isUpdateAvailable := true, m_releases := [{ m_title := "v2.0" }] } }

def resultsNul : Results :=
  { wasCheckSuccessful := true
    updateInfo := { m_isUpdateAvailable := true, m_releases := [{ m_title := titleWithNul }] } }

/-! ## Fresh addresses -/

theorem le_maxAddress {l : List Nat} {a : Nat} (h : a ∈ l) : a ≤ maxAddress l := by
  induction l with
  | nil => cases h
  | cons x xs ih =>
    simp only [maxAddress, List.foldr_cons]
    rcases List.mem_cons.mp h with rfl | h'
    · exact Nat.le_max_left _ _
    · exact Nat.le_trans (ih h') (Nat.le_max_right _ _)

theorem MainWindow.thread_address_ne_fresh (w : MainWindow) {t : ThreadController}
    (h : t ∈ w.threads) : t.address ≠ w.freshAddress := by
  have hm : t.address ∈ w.threads.map (fun t => t.address)
      ++ w.dialogs.map (fun d => d.address) :=
    List.mem_append_left _ (List.mem_map_of_mem _ h)
  have := le_maxAddress hm
  unfold MainWindow.freshAddress
  omega

theorem MainWindow.dialog_address_ne_fresh (w : MainWindow) {d : UpdateCheckResultsDialog}
    (h : d ∈ w.dialogs) : d.address ≠ w.freshAddress := by
  have hm : d.address ∈ w.threads.map (fun t => t.address)
      ++ w.dialogs.map (fun d => d.address) :=
    List.mem_append_right _ (List.mem_map_of_mem _ h)
  have := le_maxAddress hm
  unfold MainWindow.freshAddress
  omega

theorem map_threads_fresh (l : List ThreadController) (a : Nat)
    (f : ThreadController → ThreadController) (h : ∀ t ∈ l, t.address ≠ a) :
    l.map (fun t => if t.address = a then f t else t) = l := by
  induction l with
  | nil => rfl
  | cons x xs ih =>
    have hx : x.address ≠ a := h x (List.mem_cons_self _ _)
    have hxs : ∀ t ∈ xs, t.address ≠ a := fun t ht => h t (List.mem_cons_of_mem _ ht)
    simp [hx, ih hxs]

theorem filter_threads_fresh (l : List ThreadController) (a : Nat)
    (h : ∀ t ∈ l, t.address ≠ a) :
    l.filter (fun t => t.address != a) = l := by
  induction l with
  | nil => rfl
  | cons x xs ih =>
    have hx : x.address ≠ a := h x (List.mem_cons_self _ _)
    have hxs : ∀ t ∈ xs, t.address ≠ a := fun t ht => h t (List.mem_cons_of_mem _ ht)
    simp [hx, ih hxs]

theorem map_dialogs_fresh (l : List UpdateCheckResultsDialog) (a : Nat)
    (f : UpdateCheckResultsDialog → UpdateCheckResultsDialog)
    (h : ∀ d ∈ l, d.address ≠ a) :
    l.map (fun d => if d.address = a then f d else d) = l := by
  induction l with
  | nil => rfl
  | cons x xs ih =>
    have hx : x.address ≠ a := h x (List.mem_cons_self _ _)
    have hxs : ∀ d ∈ xs, d.address ≠ a := fun d hd => h d (List.mem_cons_of_mem _ hd)
    simp [hx, ih hxs]

/-! ## What each check path does -/

theorem SetupCheckForUpdatesOnStartup_connected (b : Build) (w : MainWindow)
    (hc : w.ui.checkForUpdatesOnStartupCheckBox.checked = true) :
    MainWindow.SetupCheckForUpdatesOnStartup b true w =
      .returned { w with
        threads := w.threads ++
          [{ address := w.freshAddress
             major := (startupVersion b).1, minor := (startupVersion b).2.1
             patch := (startupVersion b).2.2.1, build := (startupVersion b).2.2.2
             CheckForUpdatesComplete := [.ShowResultsDialog]
             started := [(".", "UpdateCheckerGUI-updates.json")] }]
        calls := w.calls ++
          [.construct w.freshAddress (startupVersion b).1 (startupVersion b).2.1
              (startupVersion b).2.2.1 (startupVersion b).2.2.2,
           .connectComplete w.freshAddress .ShowResultsDialog true,
           .StartCheckForUpdates w.freshAddress "." "UpdateCheckerGUI-updates.json"] } := by
  have hf := map_threads_fresh w.threads w.freshAddress
  have hne : ∀ t ∈ w.threads, t.address ≠ w.freshAddress :=
    fun t ht => w.thread_address_ne_fresh ht
  simp [MainWindow.SetupCheckForUpdatesOnStartup, hc, MainWindow.newThreadController,
    MainWindow.connectComplete, cassert, MainWindow.StartCheckForUpdates, hf _ hne,
    UPDATECHECKURL, UPDATECHECKASSET]

theorem SetupCheckForUpdatesOnStartupWithNotification_connected (b : Build) (w : MainWindow)
    (hc : w.ui.checkForUpdatesOnStartupCheckBoxWithNotification.checked = true) :
    MainWindow.SetupCheckForUpdatesOnStartupWithNotification b true w =
      .returned { w with
        ui := { w.ui with
          newVersionAvailablePushButton :=
            { w.ui.newVersionAvailablePushButton with enabled := false } }
        threads := w.threads ++
          [{ address := w.freshAddress
             major := (startupVersion b).1, minor := (startupVersion b).2.1
             patch := (startupVersion b).2.2.1, build := (startupVersion b).2.2.2
             CheckForUpdatesComplete := [.NotifyOfNewVersion]
             started := [(".", "UpdateCheckerGUI-updates.json")] }]
        calls := w.calls ++
          [.construct w.freshAddress (startupVersion b).1 (startupVersion b).2.1
              (startupVersion b).2.2.1 (startupVersion b).2.2.2,
           .connectComplete w.freshAddress .NotifyOfNewVersion true,
           .StartCheckForUpdates w.freshAddress "." "UpdateCheckerGUI-updates.json"] } := by
  have hf := map_threads_fresh w.threads w.freshAddress
  have hne : ∀ t ∈ w.threads, t.address ≠ w.freshAddress :=
    fun t ht => w.thread_address_ne_fresh ht
  have hfr : ∀ f, (w.onNewVersionAvailablePushButton f).freshAddress = w.freshAddress :=
    fun _ => rfl
  have hth : ∀ f, (w.onNewVersionAvailablePushButton f).threads = w.threads := fun _ => rfl
  have hui : ∀ f, (w.onNewVersionAvailablePushButton f).ui.checkForUpdatesOnStartupCheckBoxWithNotification
      = w.ui.checkForUpdatesOnStartupCheckBoxWithNotification := fun _ => rfl
  simp [MainWindow.SetupCheckForUpdatesOnStartupWithNotification, hc, hfr, hth, hui,
    MainWindow.newThreadController,
    MainWindow.connectComplete, cassert, MainWindow.StartCheckForUpdates, hf _ hne,
    UPDATECHECKURL, UPDATECHECKASSET]
  exact ⟨rfl, rfl, rfl⟩

theorem ManualCheckForUpdatesButtonClicked_connected (b : Build) (w : MainWindow) :
    MainWindow.ManualCheckForUpdatesButtonClicked b true w =
      .returned { w with
        threads := w.threads ++
          [{ address := w.freshAddress
             major := (manualVersion b).1, minor := (manualVersion b).2.1
             patch := (manualVersion b).2.2.1, build := (manualVersion b).2.2.2
             CheckForUpdatesComplete := [.ShowResultsDialog]
             started := [(".", "UpdateCheckerGUI-updates.json")] }]
        calls := w.calls ++
          [.construct w.freshAddress (manualVersion b).1 (manualVersion b).2.1
              (manualVersion b).2.2.1 (manualVersion b).2.2.2,
           .connectComplete w.freshAddress .ShowResultsDialog true,
           .StartCheckForUpdates w.freshAddress "." "UpdateCheckerGUI-updates.json"] } := by
  have hf := map_threads_fresh w.threads w.freshAddress
  have hne : ∀ t ∈ w.threads, t.address ≠ w.freshAddress :=
    fun t ht => w.thread_address_ne_fresh ht
  simp [MainWindow.ManualCheckForUpdatesButtonClicked, MainWindow.newThreadController,
    MainWindow.connectComplete, cassert, MainWindow.StartCheckForUpdates, hf _ hne,
    UPDATECHECKURL, UPDATECHECKASSET]

/-! ## The claims about the check paths -/

/-- C7: each of the three triggering events (startup check with its checkbox
checked, startup-with-notification check with its checkbox checked, manual
button click), when the completion connection succeeds, constructs exactly one
worker, registers exactly one completion callback on it (`ShowResultsDialog`
for the startup and manual variants, `NotifyOfNewVersion` for the notification
variant) and invokes its start operation exactly once with base location "."
and asset name "UpdateCheckerGUI-updates.json": the call history grows by
exactly construct, connect, start on one fresh address, and the live workers
grow by exactly that worker. -/
theorem C7_each_trigger_constructs_connects_starts_one_worker (b : Build) (w : MainWindow) :
    (w.ui.checkForUpdatesOnStartupCheckBox.checked = true →
      ∃ w', MainWindow.SetupCheckForUpdatesOnStartup b true w = .returned w'
        ∧ w'.threads = w.threads ++
            [{ address := w.freshAddress
               major := (startupVersion b).1, minor := (startupVersion b).2.1
               patch := (startupVersion b).2.2.1, build := (startupVersion b).2.2.2
               CheckForUpdatesComplete := [.ShowResultsDialog]
               started := [(".", "UpdateCheckerGUI-updates.json")] }]
        ∧ w'.calls = w.calls ++
            [.construct w.freshAddress (startupVersion b).1 (startupVersion b).2.1
                (startupVersion b).2.2.1 (startupVersion b).2.2.2,
             .connectComplete w.freshAddress .ShowResultsDialog true,
             .StartCheckForUpdates w.freshAddress "." "UpdateCheckerGUI-updates.json"])
    ∧ (w.ui.checkForUpdatesOnStartupCheckBoxWithNotification.checked = true →
      ∃ w', MainWindow.SetupCheckForUpdatesOnStartupWithNotification b true w = .returned w'
        ∧ w'.threads = w.threads ++
            [{ address := w.freshAddress
               major := (startupVersion b).1, minor := (startupVersion b).2.1
               patch := (startupVersion b).2.2.1, build := (startupVersion b).2.2.2
               CheckForUpdatesComplete := [.NotifyOfNewVersion]
               started := [(".", "UpdateCheckerGUI-updates.json")] }]
        ∧ w'.calls = w.calls ++
            [.construct w.freshAddress (startupVersion b).1 (startupVersion b).2.1
                (startupVersion b).2.2.1 (startupVersion b).2.2.2,
             .connectComplete w.freshAddress .NotifyOfNewVersion true,
             .StartCheckForUpdates w.freshAddress "." "UpdateCheckerGUI-updates.json"])
    ∧ (∃ w', MainWindow.ManualCheckForUpdatesButtonClicked b true w = .returned w'
        ∧ w'.threads = w.threads ++
            [{ address := w.freshAddress
               major := (manualVersion b).1, minor := (manualVersion b).2.1
               patch := (manualVersion b).2.2.1, build := (manualVersion b).2.2.2
               CheckForUpdatesComplete := [.ShowResultsDialog]
               started := [(".", "UpdateCheckerGUI-updates.json")] }]
        ∧ w'.calls = w.calls ++
            [.construct w.freshAddress (manualVersion b).1 (manualVersion b).2.1
                (manualVersion b).2.2.1 (manualVersion b).2.2.2,
             .connectComplete w.freshAddress .ShowResultsDialog true,
             .StartCheckForUpdates w.freshAddress "." "UpdateCheckerGUI-updates.json"]) := by
  refine ⟨fun hc => ⟨_, SetupCheckForUpdatesOnStartup_connected b w hc, rfl, rfl⟩,
    fun hc => ⟨_, SetupCheckForUpdatesOnStartupWithNotification_connected b w hc, rfl, rfl⟩,
    ⟨_, ManualCheckForUpdatesButtonClicked_connected b w, rfl, rfl⟩⟩

/-- The theorem of C7 at a window whose two startup checkboxes are checked and
that already owns a worker at address 7: the startup check adds the worker at
address 8 and makes exactly the three calls on it. -/
theorem C7_each_trigger_constructs_connects_starts_one_worker_witness :
    checkedWindow.ui.checkForUpdatesOnStartupCheckBox.checked = true
    ∧ (∃ w', MainWindow.SetupCheckForUpdatesOnStartup releaseBuild true checkedWindow
          = .returned w'
        ∧ w'.threads = checkedWindow.threads ++
            [{ address := 8, major := 1, minor := 0, patch := 0, build := 0
               CheckForUpdatesComplete := [.ShowResultsDialog]
               started := [(".", "UpdateCheckerGUI-updates.json")] }]
        ∧ w'.calls =
            [.construct 8 1 0 0 0,
             .connectComplete 8 .ShowResultsDialog true,
             .StartCheckForUpdates 8 "." "UpdateCheckerGUI-updates.json"])
    ∧ checkedWindow.ui.checkForUpdatesOnStartupCheckBoxWithNotification.checked = true
    ∧ ∃ w', MainWindow.SetupCheckForUpdatesOnStartupWithNotification releaseBuild true
          checkedWindow = .returned w'
        ∧ w'.threads = checkedWindow.threads ++
            [{ address := 8, major := 1, minor := 0, patch := 0, build := 0
               CheckForUpdatesComplete := [.NotifyOfNewVersion]
               started := [(".", "UpdateCheckerGUI-updates.json")] }]
        ∧ w'.calls =
            [.construct 8 1 0 0 0,
             .connectComplete 8 .NotifyOfNewVersion true,
             .StartCheckForUpdates 8 "." "UpdateCheckerGUI-updates.json"] :=
  ⟨rfl,
   (C7_each_trigger_constructs_connects_starts_one_worker releaseBuild checkedWindow).1 rfl,
   rfl,
   (C7_each_trigger_constructs_connects_starts_one_worker releaseBuild checkedWindow).2.1 rfl⟩

/-- C4: when the corresponding startup checkbox is unchecked,
`SetupCheckForUpdatesOnStartup` and
`SetupCheckForUpdatesOnStartupWithNotification` construct no worker, register
no completion callback and start no check: they return, the call history is
unchanged and the live workers are unchanged.  (The first leaves the whole
window unchanged; the second only disables the notification button.) -/
theorem C4_unchecked_box_constructs_no_worker (b : Build) (connectOk : Bool)
    (w : MainWindow) :
    (w.ui.checkForUpdatesOnStartupCheckBox.checked = false →
      MainWindow.SetupCheckForUpdatesOnStartup b connectOk w = .returned w)
    ∧ (w.ui.checkForUpdatesOnStartupCheckBoxWithNotification.checked = false →
      ∃ w', MainWindow.SetupCheckForUpdatesOnStartupWithNotification b connectOk w
          = .returned w'
        ∧ w'.threads = w.threads ∧ w'.calls = w.calls ∧ w'.dialogs = w.dialogs) := by
  constructor
  · intro hc
    simp [MainWindow.SetupCheckForUpdatesOnStartup, hc]
  · intro hc
    refine ⟨w.onNewVersionAvailablePushButton fun btn => { btn with enabled := false },
      ?_, rfl, rfl, rfl⟩
    have hui : ∀ f, (w.onNewVersionAvailablePushButton f).ui.checkForUpdatesOnStartupCheckBoxWithNotification
        = w.ui.checkForUpdatesOnStartupCheckBoxWithNotification := fun _ => rfl
    simp [MainWindow.SetupCheckForUpdatesOnStartupWithNotification, hui, hc]

/-- The theorem of C4 at a window whose two startup checkboxes are unchecked. -/
theorem C4_unchecked_box_constructs_no_worker_witness :
    MainWindow.SetupCheckForUpdatesOnStartup releaseBuild true sampleWindow
        = .returned sampleWindow
    ∧ ∃ w', MainWindow.SetupCheckForUpdatesOnStartupWithNotification releaseBuild true
          sampleWindow = .returned w'
        ∧ w'.threads = sampleWindow.threads ∧ w'.calls = sampleWindow.calls
        ∧ w'.dialogs = sampleWindow.dialogs :=
  ⟨(C4_unchecked_box_constructs_no_worker releaseBuild true sampleWindow).1 rfl,
   (C4_unchecked_box_constructs_no_worker releaseBuild true sampleWindow).2 rfl⟩


/-! ## A connection that cannot be established -/

theorem SetupCheckForUpdatesOnStartupWithNotification_not_connected (b : Build)
    (w : MainWindow)
    (hc : w.ui.checkForUpdatesOnStartupCheckBoxWithNotification.checked = true) :
    MainWindow.SetupCheckForUpdatesOnStartupWithNotification b false w =
      if b.NDEBUG then
        .returned { w with
          ui := { w.ui with
            newVersionAvailablePushButton :=
              { w.ui.newVersionAvailablePushButton with enabled := false } }
          calls := w.calls ++
            [.construct w.freshAddress (startupVersion b).1 (startupVersion b).2.1
                (startupVersion b).2.2.1 (startupVersion b).2.2.2,
             .connectComplete w.freshAddress .NotifyOfNewVersion false,
             .delete w.freshAddress] }
      else
        .assertFailed { w with
          ui := { w.ui with
            newVersionAvailablePushButton :=
              { w.ui.newVersionAvailablePushButton with enabled := false } }
          threads := w.threads ++
            [{ address := w.freshAddress
               major := (startupVersion b).1, minor := (startupVersion b).2.1
               patch := (startupVersion b).2.2.1, build := (startupVersion b).2.2.2
               CheckForUpdatesComplete := [], started := [] }]
          calls := w.calls ++
            [.construct w.freshAddress (startupVersion b).1 (startupVersion b).2.1
                (startupVersion b).2.2.1 (startupVersion b).2.2.2,
             .connectComplete w.freshAddress .NotifyOfNewVersion false] } := by
  have hne : ∀ t ∈ w.threads, t.address ≠ w.freshAddress :=
    fun t ht => w.thread_address_ne_fresh ht
  have hf := filter_threads_fresh w.threads w.freshAddress hne
  have hfr : ∀ f, (w.onNewVersionAvailablePushButton f).freshAddress = w.freshAddress :=
    fun _ => rfl
  have hth : ∀ f, (w.onNewVersionAvailablePushButton f).threads = w.threads := fun _ => rfl
  have hui : ∀ f, (w.onNewVersionAvailablePushButton f).ui.checkForUpdatesOnStartupCheckBoxWithNotification
      = w.ui.checkForUpdatesOnStartupCheckBoxWithNotification := fun _ => rfl
  cases hN : b.NDEBUG <;>
    simp [MainWindow.SetupCheckForUpdatesOnStartupWithNotification, hc, hfr, hth, hui, hN,
      MainWindow.newThreadController, MainWindow.connectComplete, cassert,
      MainWindow.deleteThread, List.filter_append, hf] <;>
    exact ⟨rfl, rfl, rfl⟩

theorem ManualCheckForUpdatesButtonClicked_not_connected (b : Build) (w : MainWindow) :
    MainWindow.ManualCheckForUpdatesButtonClicked b false w =
      if b.NDEBUG then
        .returned { w with
          calls := w.calls ++
            [.construct w.freshAddress (manualVersion b).1 (manualVersion b).2.1
                (manualVersion b).2.2.1 (manualVersion b).2.2.2,
             .connectComplete w.freshAddress .ShowResultsDialog false,
             .delete w.freshAddress] }
      else
        .assertFailed { w with
          threads := w.threads ++
            [{ address := w.freshAddress
               major := (manualVersion b).1, minor := (manualVersion b).2.1
               patch := (manualVersion b).2.2.1, build := (manualVersion b).2.2.2
               CheckForUpdatesComplete := [], started := [] }]
          calls := w.calls ++
            [.construct w.freshAddress (manualVersion b).1 (manualVersion b).2.1
                (manualVersion b).2.2.1 (manualVersion b).2.2.2,
             .connectComplete w.freshAddress .ShowResultsDialog false] } := by
  have hne : ∀ t ∈ w.threads, t.address ≠ w.freshAddress :=
    fun t ht => w.thread_address_ne_fresh ht
  have hf := filter_threads_fresh w.threads w.freshAddress hne
  cases hN : b.NDEBUG <;>
    simp [MainWindow.ManualCheckForUpdatesButtonClicked, hN,
      MainWindow.newThreadController, MainWindow.connectComplete, cassert,
      MainWindow.deleteThread, List.filter_append, hf]

theorem SetupManualCheckForUpdates_not_connected (b : Build) (w : MainWindow) :
    MainWindow.SetupManualCheckForUpdates b false w =
      if b.NDEBUG then
        .returned { w with
          ui := { w.ui with
            checkForUpdatesPushButton :=
              { w.ui.checkForUpdatesPushButton with enabled := false } } }
      else
        .assertFailed w := by
  cases hN : b.NDEBUG <;>
    simp [MainWindow.SetupManualCheckForUpdates, hN, cassert,
      MainWindow.onCheckForUpdatesPushButton]

/-- C5, as stated, fails in a build where `assert` is active (`NDEBUG` not
defined): with the button-click connection failing,
`SetupManualCheckForUpdates` stops at the `assert` of line 145 with the manual
check button still enabled; and with the completion connection failing,
`ManualCheckForUpdatesButtonClicked` stops at the `assert` of line 174 with
the new worker (address 8) still live, its `delete` never reached. -/
theorem C5_counterexample_assert_stops_before_cleanup :
    MainWindow.SetupManualCheckForUpdates assertingBuild false sampleWindow
        = .assertFailed sampleWindow
    ∧ sampleWindow.ui.checkForUpdatesPushButton.enabled = true
    ∧ MainWindow.ManualCheckForUpdatesButtonClicked assertingBuild false sampleWindow
        = .assertFailed { sampleWindow with
            threads := sampleWindow.threads ++
              [{ address := 8, major := 0, minor := 0, patch := 0, build := 0
                 CheckForUpdatesComplete := [], started := [] }]
            calls := [.construct 8 0 0 0 0, .connectComplete 8 .ShowResultsDialog false] } := by
  refine ⟨?_, rfl, ?_⟩
  · exact SetupManualCheckForUpdates_not_connected assertingBuild sampleWindow
  · exact ManualCheckForUpdatesButtonClicked_not_connected assertingBuild sampleWindow

/-- C5, amended: in a build where `assert` expands to nothing (`NDEBUG`
defined), if the completion-callback connection cannot be established then
the notification variant (checkbox checked) and the manual variant return with
the newly constructed worker deleted and its start operation never invoked
(the call history grows by exactly construct, failed connect, delete, and the
live workers are those from before the call), and `SetupManualCheckForUpdates`
with a failing button-click connection returns with the manual check button
disabled.  In a build where `assert` is active, each of the three stops at its
`assert` instead: the start operation is not invoked either, but neither the
`delete` nor the disabling of the button is reached. -/
theorem C5_failed_connection_discards_worker_or_disables_button (b : Build)
    (w : MainWindow) :
    (b.NDEBUG = true →
      (w.ui.checkForUpdatesOnStartupCheckBoxWithNotification.checked = true →
        ∃ w', MainWindow.SetupCheckForUpdatesOnStartupWithNotification b false w
            = .returned w'
          ∧ w'.threads = w.threads
          ∧ w'.calls = w.calls ++
              [.construct w.freshAddress (startupVersion b).1 (startupVersion b).2.1
                  (startupVersion b).2.2.1 (startupVersion b).2.2.2,
               .connectComplete w.freshAddress .NotifyOfNewVersion false,
               .delete w.freshAddress])
      ∧ (∃ w', MainWindow.ManualCheckForUpdatesButtonClicked b false w = .returned w'
          ∧ w'.threads = w.threads
          ∧ w'.calls = w.calls ++
              [.construct w.freshAddress (manualVersion b).1 (manualVersion b).2.1
                  (manualVersion b).2.2.1 (manualVersion b).2.2.2,
               .connectComplete w.freshAddress .ShowResultsDialog false,
               .delete w.freshAddress])
      ∧ (∃ w', MainWindow.SetupManualCheckForUpdates b false w = .returned w'
          ∧ w'.ui.checkForUpdatesPushButton.enabled = false))
    ∧ (b.NDEBUG = false →
      (w.ui.checkForUpdatesOnStartupCheckBoxWithNotification.checked = true →
        ∃ w', MainWindow.SetupCheckForUpdatesOnStartupWithNotification b false w
            = .assertFailed w'
          ∧ w'.calls = w.calls ++
              [.construct w.freshAddress (startupVersion b).1 (startupVersion b).2.1
                  (startupVersion b).2.2.1 (startupVersion b).2.2.2,
               .connectComplete w.freshAddress .NotifyOfNewVersion false])
      ∧ (∃ w', MainWindow.ManualCheckForUpdatesButtonClicked b false w = .assertFailed w'
          ∧ w'.calls = w.calls ++
              [.construct w.freshAddress (manualVersion b).1 (manualVersion b).2.1
                  (manualVersion b).2.2.1 (manualVersion b).2.2.2,
               .connectComplete w.freshAddress .ShowResultsDialog false])
      ∧ MainWindow.SetupManualCheckForUpdates b false w = .assertFailed w) := by
  have h2 := ManualCheckForUpdatesButtonClicked_not_connected b w
  have h3 := SetupManualCheckForUpdates_not_connected b w
  constructor
  · intro hN
    rw [if_pos hN] at h2 h3
    refine ⟨fun hc => ?_, ⟨_, h2, rfl, rfl⟩, ⟨_, h3, rfl⟩⟩
    have h1 := SetupCheckForUpdatesOnStartupWithNotification_not_connected b w hc
    rw [if_pos hN] at h1
    exact ⟨_, h1, rfl, rfl⟩
  · intro hN
    have hN' : ¬ (b.NDEBUG = true) := by simp [hN]
    rw [if_neg hN'] at h2 h3
    refine ⟨fun hc => ?_, ⟨_, h2, rfl⟩, h3⟩
    have h1 := SetupCheckForUpdatesOnStartupWithNotification_not_connected b w hc
    rw [if_neg hN'] at h1
    exact ⟨_, h1, rfl⟩

/-- The theorem of C5 at a build with `NDEBUG` defined and a window whose
notification checkbox is checked and that owns a worker at address 7: the new
worker gets address 8, is deleted and is never started. -/
theorem C5_failed_connection_discards_worker_or_disables_button_witness :
    releaseBuild.NDEBUG = true
    ∧ checkedWindow.ui.checkForUpdatesOnStartupCheckBoxWithNotification.checked = true
    ∧ (∃ w', MainWindow.SetupCheckForUpdatesOnStartupWithNotification releaseBuild false
            checkedWindow = .returned w'
          ∧ w'.threads = checkedWindow.threads
          ∧ w'.calls =
              [.construct 8 1 0 0 0,
               .connectComplete 8 .NotifyOfNewVersion false,
               .delete 8])
    ∧ (∃ w', MainWindow.SetupManualCheckForUpdates releaseBuild false checkedWindow
            = .returned w'
          ∧ w'.ui.checkForUpdatesPushButton.enabled = false)
    ∧ assertingBuild.NDEBUG = false
    ∧ MainWindow.SetupManualCheckForUpdates assertingBuild false checkedWindow
        = .assertFailed checkedWindow :=
  ⟨rfl, rfl,
   ((C5_failed_connection_discards_worker_or_disables_button releaseBuild checkedWindow).1
      rfl).1 rfl,
   ((C5_failed_connection_discards_worker_or_disables_button releaseBuild checkedWindow).1
      rfl).2.2,
   rfl,
   ((C5_failed_connection_discards_worker_or_disables_button assertingBuild checkedWindow).2
      rfl).2.2⟩

/-! ## The constructor -/

/-- C9: constructing the main window forces both startup checkboxes to checked
before the setup functions run, whatever `setupUi` left in them, so that, when
the two completion connections succeed, exactly two workers are constructed
and started during construction, the first wired to `ShowResultsDialog` and
the second to `NotifyOfNewVersion`; no third worker exists (the manual variant
constructs one only in its click slot), and the notification button is
disabled in the state construction ends in.  Construction ends by returning,
except that with `assert` active and the button-click connection failing it
ends at the `assert` of line 145, in the same state. -/
theorem C9_constructor_starts_exactly_two_workers (b : Build)
    (afterSetupUi : Ui_MainWindow) (connectOk3 : Bool) :
    ∃ w : MainWindow,
      MainWindow.ctor b afterSetupUi true true connectOk3
          = (if b.NDEBUG || connectOk3 then .returned w else .assertFailed w)
      ∧ w.ui.checkForUpdatesOnStartupCheckBox.checked = true
      ∧ w.ui.checkForUpdatesOnStartupCheckBoxWithNotification.checked = true
      ∧ w.threads =
          [{ address := 1
             major := (startupVersion b).1, minor := (startupVersion b).2.1
             patch := (startupVersion b).2.2.1, build := (startupVersion b).2.2.2
             CheckForUpdatesComplete := [.ShowResultsDialog]
             started := [(".", "UpdateCheckerGUI-updates.json")] },
           { address := 2
             major := (startupVersion b).1, minor := (startupVersion b).2.1
             patch := (startupVersion b).2.2.1, build := (startupVersion b).2.2.2
             CheckForUpdatesComplete := [.NotifyOfNewVersion]
             started := [(".", "UpdateCheckerGUI-updates.json")] }]
      ∧ w.calls =
          [.construct 1 (startupVersion b).1 (startupVersion b).2.1
              (startupVersion b).2.2.1 (startupVersion b).2.2.2,
           .connectComplete 1 .ShowResultsDialog true,
           .StartCheckForUpdates 1 "." "UpdateCheckerGUI-updates.json",
           .construct 2 (startupVersion b).1 (startupVersion b).2.1
              (startupVersion b).2.2.1 (startupVersion b).2.2.2,
           .connectComplete 2 .NotifyOfNewVersion true,
           .StartCheckForUpdates 2 "." "UpdateCheckerGUI-updates.json"]
      ∧ w.dialogs = []
      ∧ w.ui.newVersionAvailablePushButton.enabled = false := by
  refine ⟨
    { ui :=
        { checkForUpdatesOnStartupCheckBox := { checked := true }
          checkForUpdatesOnStartupCheckBoxWithNotification := { checked := true }
          newVersionAvailablePushButton :=
            { afterSetupUi.newVersionAvailablePushButton with enabled := false }
          checkForUpdatesPushButton :=
            if connectOk3 then
              { afterSetupUi.checkForUpdatesPushButton with
                  clicked := afterSetupUi.checkForUpdatesPushButton.clicked
                    ++ [.ManualCheckForUpdatesButtonClicked] }
            else if b.NDEBUG then
              { afterSetupUi.checkForUpdatesPushButton with enabled := false }
            else afterSetupUi.checkForUpdatesPushButton }
      threads := _, dialogs := [], calls := _ }, ?_, rfl, rfl, rfl, rfl, rfl, rfl⟩
  unfold MainWindow.ctor
  simp only []
  rw [SetupCheckForUpdatesOnStartup_connected b _ rfl]
  simp only [Outcome.bind]
  rw [SetupCheckForUpdatesOnStartupWithNotification_connected b _ rfl]
  simp only [Outcome.bind]
  cases hN : b.NDEBUG <;> cases connectOk3 <;>
    simp [MainWindow.SetupManualCheckForUpdates, cassert, hN,
      MainWindow.onCheckForUpdatesPushButton, MainWindow.freshAddress, maxAddress]

/-! ## The completion handlers -/

theorem deleteIfNotNull_ui (w : MainWindow) (p : Option Nat) :
    (w.deleteIfNotNull p).ui = w.ui := by
  cases p <;> rfl

theorem deleteIfNotNull_dialogs (w : MainWindow) (p : Option Nat) :
    (w.deleteIfNotNull p).dialogs = w.dialogs := by
  cases p <;> rfl

theorem deleteIfNotNull_not_live (w : MainWindow) (p : Nat) :
    ∀ t ∈ (w.deleteIfNotNull (some p)).threads, t.address ≠ p := by
  intro t ht
  simp [MainWindow.deleteIfNotNull, MainWindow.deleteThread] at ht
  exact ht.2

theorem c_str_of_no_nul (s : String) (h : Char.ofNat 0 ∉ s.data) : c_str s = s.data := by
  unfold c_str
  rw [List.takeWhile_eq_self_iff]
  intro c hc
  simp only [bne_iff_ne, ne_eq]
  rintro rfl
  exact h hc

theorem NotifyOfNewVersion_no_update (w : MainWindow) (p : Option Nat) (r : Results)
    (h : r.wasCheckSuccessful = false ∨ r.updateInfo.m_isUpdateAvailable = false) :
    MainWindow.NotifyOfNewVersion w p r = .returned (w.deleteIfNotNull p) := by
  rcases h with h | h <;> simp [MainWindow.NotifyOfNewVersion, h, Outcome.bind]

theorem ShowResultsDialog_no_update (w : MainWindow) (p : Option Nat) (r : Results)
    (h : r.wasCheckSuccessful = false ∨ r.updateInfo.m_isUpdateAvailable = false) :
    MainWindow.ShowResultsDialog w p r = .returned (w.deleteIfNotNull p) := by
  rcases h with h | h <;> simp [MainWindow.ShowResultsDialog, h, Outcome.bind]

theorem NotifyOfNewVersion_update (w : MainWindow) (p : Option Nat) (r : Results)
    (release : ReleaseInfo) (rest : List ReleaseInfo)
    (hs : r.wasCheckSuccessful = true) (ha : r.updateInfo.m_isUpdateAvailable = true)
    (hr : r.updateInfo.m_releases = release :: rest) :
    MainWindow.NotifyOfNewVersion w p r =
      .returned (MainWindow.deleteIfNotNull
        { w with
          ui := { w.ui with
            newVersionAvailablePushButton :=
              { text := "New version available: " ++ String.mk (c_str release.m_title)
                  ++ "\nClick here for more information."
                enabled := true
                visible := true
                clicked := w.ui.newVersionAvailablePushButton.clicked
                  ++ [.QDialog_show w.freshAddress] } }
          dialogs := w.dialogs ++
            [{ address := w.freshAddress, parentIsMainWindow := true
               WA_DeleteOnClose := false, results := some r, shown := false }] } p) := by
  have hne : ∀ d ∈ w.dialogs, d.address ≠ w.freshAddress :=
    fun d hd => w.dialog_address_ne_fresh hd
  have hf := fun f => map_dialogs_fresh w.dialogs w.freshAddress f hne
  have hfr : ∀ (u : Ui_MainWindow) (c : List Call),
      MainWindow.freshAddress
        { ui := u, threads := w.threads, dialogs := w.dialogs, calls := c } = w.freshAddress :=
    fun _ _ => rfl
  simp [MainWindow.NotifyOfNewVersion, hs, ha, hr, Outcome.bind, MainWindow.newResultsDialog,
    MainWindow.onDialog, MainWindow.onNewVersionAvailablePushButton, QString.append, hfr, hf]

theorem ShowResultsDialog_update (w : MainWindow) (p : Option Nat) (r : Results)
    (hs : r.wasCheckSuccessful = true) (ha : r.updateInfo.m_isUpdateAvailable = true) :
    MainWindow.ShowResultsDialog w p r =
      .returned (MainWindow.deleteIfNotNull
        { w with
          dialogs := w.dialogs ++
            [{ address := w.freshAddress, parentIsMainWindow := true
               WA_DeleteOnClose := true, results := some r, shown := true }] } p) := by
  have hne : ∀ d ∈ w.dialogs, d.address ≠ w.freshAddress :=
    fun d hd => w.dialog_address_ne_fresh hd
  have hf := fun f => map_dialogs_fresh w.dialogs w.freshAddress f hne
  simp [MainWindow.ShowResultsDialog, hs, ha, Outcome.bind, MainWindow.newResultsDialog,
    MainWindow.onDialog, hf]

/-- C1, as stated, fails for a title with a NUL character in it: the title
is `v2`, NUL, `x`; both flags are true and the release list is non-empty; the
button text ends up with `v2` only, which is not the text made of the whole
title. -/
theorem C1_counterexample_title_with_nul :
    resultsNul.wasCheckSuccessful = true
    ∧ resultsNul.updateInfo.m_isUpdateAvailable = true
    ∧ resultsNul.updateInfo.m_releases = [{ m_title := titleWithNul }]
    ∧ ∃ w', MainWindow.NotifyOfNewVersion sampleWindow (some 7) resultsNul = .returned w'
        ∧ w'.ui.newVersionAvailablePushButton.text
            = "New version available: v2\nClick here for more information."
        ∧ w'.ui.newVersionAvailablePushButton.text
            ≠ "New version available: " ++ titleWithNul
                ++ "\nClick here for more information." := by
  refine ⟨rfl, rfl, rfl, _, rfl, ?_, ?_⟩ <;> decide

/-- C1, amended: for every result payload whose success flag and
update-available flag are both true and whose release list is non-empty, after
`NotifyOfNewVersion` runs the notification button is enabled, is visible, and
its text is exactly "New version available: " followed by the title of the
first release up to (not including) its first NUL character, followed by
"\nClick here for more information."; so for a title without a NUL character
the text holds the whole title. -/
theorem C1_notification_button_shows_first_release_title (w : MainWindow)
    (pThread : Option Nat) (r : Results) (release : ReleaseInfo) (rest : List ReleaseInfo)
    (hs : r.wasCheckSuccessful = true) (ha : r.updateInfo.m_isUpdateAvailable = true)
    (hr : r.updateInfo.m_releases = release :: rest) :
    ∃ w', MainWindow.NotifyOfNewVersion w pThread r = .returned w'
      ∧ w'.ui.newVersionAvailablePushButton.enabled = true
      ∧ w'.ui.newVersionAvailablePushButton.visible = true
      ∧ w'.ui.newVersionAvailablePushButton.text
          = "New version available: "
              ++ String.mk (release.m_title.data.takeWhile (fun c => c != Char.ofNat 0))
              ++ "\nClick here for more information."
      ∧ (Char.ofNat 0 ∉ release.m_title.data →
          w'.ui.newVersionAvailablePushButton.text
            = "New version available: " ++ release.m_title
                ++ "\nClick here for more information.") := by
  refine ⟨_, NotifyOfNewVersion_update w pThread r release rest hs ha hr, ?_, ?_, ?_, ?_⟩
  · rw [deleteIfNotNull_ui]
  · rw [deleteIfNotNull_ui]
  · rw [deleteIfNotNull_ui]; rfl
  · intro h
    rw [deleteIfNotNull_ui]
    simp only [c_str_of_no_nul _ h]

/-- The theorem of C1 at the payload with the single release titled "v2.0":
the button is enabled and visible and its text holds "v2.0". -/
theorem C1_notification_button_shows_first_release_title_witness :
    resultsV2.wasCheckSuccessful = true
    ∧ resultsV2.updateInfo.m_isUpdateAvailable = true
    ∧ ∃ w', MainWindow.NotifyOfNewVersion sampleWindow (some 7) resultsV2 = .returned w'
        ∧ w'.ui.newVersionAvailablePushButton.enabled = true
        ∧ w'.ui.newVersionAvailablePushButton.visible = true
        ∧ w'.ui.newVersionAvailablePushButton.text
            = "New version available: v2.0\nClick here for more information." := by
  refine ⟨rfl, rfl, ?_⟩
  obtain ⟨w', h, he, hv, _, ht⟩ :=
    C1_notification_button_shows_first_release_title sampleWindow (some 7) resultsV2
      { m_title := "v2.0" } [] rfl rfl rfl
  exact ⟨w', h, he, hv, (ht (by decide)).trans (by decide)⟩

/-- C2: for every result payload in which the success flag is false or the
update-available flag is false, both completion handlers return and leave the
visible state unchanged: every widget, in particular the notification
button (its text, enabled flag, visible flag and click connections), is as
before, and the results dialogs are as before (none created, none shown). -/
theorem C2_no_update_leaves_ui_unchanged (w : MainWindow) (pThread : Option Nat)
    (r : Results)
    (h : r.wasCheckSuccessful = false ∨ r.updateInfo.m_isUpdateAvailable = false) :
    (∃ w', MainWindow.NotifyOfNewVersion w pThread r = .returned w'
      ∧ w'.ui.newVersionAvailablePushButton.text = w.ui.newVersionAvailablePushButton.text
      ∧ w'.ui.newVersionAvailablePushButton.enabled
          = w.ui.newVersionAvailablePushButton.enabled
      ∧ w'.ui.newVersionAvailablePushButton.visible
          = w.ui.newVersionAvailablePushButton.visible
      ∧ w'.ui.newVersionAvailablePushButton.clicked
          = w.ui.newVersionAvailablePushButton.clicked
      ∧ w'.ui = w.ui ∧ w'.dialogs = w.dialogs)
    ∧ (∃ w', MainWindow.ShowResultsDialog w pThread r = .returned w'
      ∧ w'.ui.newVersionAvailablePushButton.text = w.ui.newVersionAvailablePushButton.text
      ∧ w'.ui.newVersionAvailablePushButton.enabled
          = w.ui.newVersionAvailablePushButton.enabled
      ∧ w'.ui.newVersionAvailablePushButton.visible
          = w.ui.newVersionAvailablePushButton.visible
      ∧ w'.ui.newVersionAvailablePushButton.clicked
          = w.ui.newVersionAvailablePushButton.clicked
      ∧ w'.ui = w.ui ∧ w'.dialogs = w.dialogs) := by
  have hu := deleteIfNotNull_ui w pThread
  have hd := deleteIfNotNull_dialogs w pThread
  exact ⟨⟨_, NotifyOfNewVersion_no_update w pThread r h, by rw [hu], by rw [hu], by rw [hu],
      by rw [hu], hu, hd⟩,
    ⟨_, ShowResultsDialog_no_update w pThread r h, by rw [hu], by rw [hu], by rw [hu],
      by rw [hu], hu, hd⟩⟩

/-- The theorem of C2 at a payload whose success flag is false. -/
theorem C2_no_update_leaves_ui_unchanged_witness :
    resultsFailed.wasCheckSuccessful = false
    ∧ (∃ w', MainWindow.NotifyOfNewVersion sampleWindow (some 7) resultsFailed = .returned w'
        ∧ w'.ui = sampleWindow.ui ∧ w'.dialogs = sampleWindow.dialogs)
    ∧ (∃ w', MainWindow.ShowResultsDialog sampleWindow (some 7) resultsFailed = .returned w'
        ∧ w'.ui = sampleWindow.ui ∧ w'.dialogs = sampleWindow.dialogs) := by
  obtain ⟨⟨w1, h1, _, _, _, _, hu1, hd1⟩, ⟨w2, h2, _, _, _, _, hu2, hd2⟩⟩ :=
    C2_no_update_leaves_ui_unchanged sampleWindow (some 7) resultsFailed (Or.inl rfl)
  exact ⟨rfl, ⟨w1, h1, hu1, hd1⟩, ⟨w2, h2, hu2, hd2⟩⟩

/-! ## The read of the first release -/

/-- C8 fails on the code: with both flags true and an empty release list,
the read `m_releases[0]` has no entry to read (index 0 is out of range), and
`NotifyOfNewVersion` makes that read, whatever the window and the worker
pointer: its outcome is undefined behaviour. -/
theorem C8_empty_release_list_read_out_of_range (w : MainWindow) (pThread : Option Nat) :
    resultsNoRelease.wasCheckSuccessful = true
    ∧ resultsNoRelease.updateInfo.m_isUpdateAvailable = true
    ∧ resultsNoRelease.updateInfo.m_releases[0]? = none
    ∧ MainWindow.NotifyOfNewVersion w pThread resultsNoRelease = .undefinedBehaviour :=
  ⟨rfl, rfl, rfl, rfl⟩

/-- Apart from that payload shape the read is in range: with a non-empty
release list the handler returns. -/
theorem NotifyOfNewVersion_returns_of_release (w : MainWindow) (pThread : Option Nat)
    (r : Results) (h : r.updateInfo.m_releases ≠ []) :
    ∃ w', MainWindow.NotifyOfNewVersion w pThread r = .returned w' := by
  cases hs : r.wasCheckSuccessful
  · exact ⟨_, NotifyOfNewVersion_no_update w pThread r (Or.inl hs)⟩
  · cases ha : r.updateInfo.m_isUpdateAvailable
    · exact ⟨_, NotifyOfNewVersion_no_update w pThread r (Or.inr ha)⟩
    · obtain ⟨release, rest, hr⟩ := List.exists_cons_of_ne_nil h
      exact ⟨_, NotifyOfNewVersion_update w pThread r release rest hs ha hr⟩

/-! ## The worker is deleted -/

/-- C3 fails on the code at the payload with both flags true and no release,
given to `NotifyOfNewVersion` together with the live worker at address 7: the
handler does not return with that worker destroyed, its outcome is undefined
behaviour at the read of `m_releases[0]`, before the `delete`. -/
theorem C3_worker_not_destroyed_on_empty_release_list :
    (∃ t ∈ sampleWindow.threads, t.address = 7)
    ∧ MainWindow.NotifyOfNewVersion sampleWindow (some 7) resultsNoRelease
        = .undefinedBehaviour
    ∧ ¬ ∃ w', MainWindow.NotifyOfNewVersion sampleWindow (some 7) resultsNoRelease
          = .returned w'
        ∧ ∀ t ∈ w'.threads, t.address ≠ 7 := by
  refine ⟨⟨_, List.mem_singleton.mpr rfl, rfl⟩, rfl, ?_⟩
  rintro ⟨w', h, _⟩
  have h' : (Outcome.undefinedBehaviour : Outcome MainWindow) = .returned w' := h
  cases h'

/-- On every payload `ShowResultsDialog` returns with the worker it was given
no longer live. -/
theorem ShowResultsDialog_destroys_worker (w : MainWindow) (p : Nat) (r : Results) :
    ∃ w', MainWindow.ShowResultsDialog w (some p) r = .returned w'
      ∧ ∀ t ∈ w'.threads, t.address ≠ p := by
  cases hs : r.wasCheckSuccessful
  · exact ⟨_, ShowResultsDialog_no_update w (some p) r (Or.inl hs),
      deleteIfNotNull_not_live _ p⟩
  · cases ha : r.updateInfo.m_isUpdateAvailable
    · exact ⟨_, ShowResultsDialog_no_update w (some p) r (Or.inr ha),
        deleteIfNotNull_not_live _ p⟩
    · exact ⟨_, ShowResultsDialog_update w (some p) r hs ha, deleteIfNotNull_not_live _ p⟩

/-- On every payload with a release, or with one of the two flags false,
`NotifyOfNewVersion` returns with the worker it was given no longer live. -/
theorem NotifyOfNewVersion_destroys_worker (w : MainWindow) (p : Nat) (r : Results)
    (h : r.wasCheckSuccessful = false ∨ r.updateInfo.m_isUpdateAvailable = false
      ∨ r.updateInfo.m_releases ≠ []) :
    ∃ w', MainWindow.NotifyOfNewVersion w (some p) r = .returned w'
      ∧ ∀ t ∈ w'.threads, t.address ≠ p := by
  cases hs : r.wasCheckSuccessful
  · exact ⟨_, NotifyOfNewVersion_no_update w (some p) r (Or.inl hs),
      deleteIfNotNull_not_live _ p⟩
  · cases ha : r.updateInfo.m_isUpdateAvailable
    · exact ⟨_, NotifyOfNewVersion_no_update w (some p) r (Or.inr ha),
        deleteIfNotNull_not_live _ p⟩
    · rcases h with h | h | h
      · rw [hs] at h; cases h
      · rw [ha] at h; cases h
      · obtain ⟨release, rest, hr⟩ := List.exists_cons_of_ne_nil h
        exact ⟨_, NotifyOfNewVersion_update w (some p) r release rest hs ha hr,
          deleteIfNotNull_not_live _ p⟩

/-! ## The results dialog -/

/-- C6 fails on the code at the payload with both flags true and no release:
`NotifyOfNewVersion` does not return with one more dialog holding the payload,
its outcome is undefined behaviour at the read of `m_releases[0]`, before the
dialog is constructed. -/
theorem C6_no_dialog_on_empty_release_list :
    resultsNoRelease.wasCheckSuccessful = true
    ∧ resultsNoRelease.updateInfo.m_isUpdateAvailable = true
    ∧ ¬ ∃ w', MainWindow.NotifyOfNewVersion sampleWindow none resultsNoRelease
          = .returned w'
        ∧ ∃ d, w'.dialogs = sampleWindow.dialogs ++ [d]
          ∧ d.results = some resultsNoRelease := by
  refine ⟨rfl, rfl, ?_⟩
  rintro ⟨w', h, _⟩
  have h' : (Outcome.undefinedBehaviour : Outcome MainWindow) = .returned w' := h
  cases h'

/-- With both flags true `ShowResultsDialog` creates exactly one dialog, sets
`WA_DeleteOnClose` on it, gives it the payload and shows it. -/
theorem ShowResultsDialog_creates_shown_dialog (w : MainWindow) (p : Option Nat)
    (r : Results) (hs : r.wasCheckSuccessful = true)
    (ha : r.updateInfo.m_isUpdateAvailable = true) :
    ∃ w', MainWindow.ShowResultsDialog w p r = .returned w'
      ∧ w'.dialogs = w.dialogs ++
          [{ address := w.freshAddress, parentIsMainWindow := true
             WA_DeleteOnClose := true, results := some r, shown := true }] :=
  ⟨_, ShowResultsDialog_update w p r hs ha, by rw [deleteIfNotNull_dialogs]⟩

/-- With both flags true and a release `NotifyOfNewVersion` creates exactly
one dialog, child of the window, gives it the payload, does not show it, and
connects the notification button to its `show`. -/
theorem NotifyOfNewVersion_creates_hidden_dialog (w : MainWindow) (p : Option Nat)
    (r : Results) (hs : r.wasCheckSuccessful = true)
    (ha : r.updateInfo.m_isUpdateAvailable = true) (hr : r.updateInfo.m_releases ≠ []) :
    ∃ w', MainWindow.NotifyOfNewVersion w p r = .returned w'
      ∧ w'.dialogs = w.dialogs ++
          [{ address := w.freshAddress, parentIsMainWindow := true
             WA_DeleteOnClose := false, results := some r, shown := false }]
      ∧ w'.ui.newVersionAvailablePushButton.clicked
          = w.ui.newVersionAvailablePushButton.clicked ++ [.QDialog_show w.freshAddress] := by
  obtain ⟨release, rest, hr'⟩ := List.exists_cons_of_ne_nil hr
  refine ⟨_, NotifyOfNewVersion_update w p r release rest hs ha hr', ?_, ?_⟩
  · rw [deleteIfNotNull_dialogs]
  · rw [deleteIfNotNull_ui]

/-- Emitting `clicked` on slots that are all `QDialog::show` connections shows
exactly the dialogs they were connected for. -/
theorem emitClicked_shows (b : Build) (connectOk : Bool) (slots : List ClickSlot)
    (h : ∀ s ∈ slots, ∃ p, s = ClickSlot.QDialog_show p) (w : MainWindow) :
    MainWindow.emitClicked b connectOk slots w =
      .returned { w with
        dialogs := w.dialogs.map fun d =>
          if ClickSlot.QDialog_show d.address ∈ slots then { d with shown := true } else d } := by
  induction slots generalizing w with
  | nil => simp [MainWindow.emitClicked]
  | cons s rest ih =>
    obtain ⟨p, rfl⟩ := h _ (List.mem_cons_self _ _)
    have hrest : ∀ s ∈ rest, ∃ p, s = ClickSlot.QDialog_show p :=
      fun s hs => h s (List.mem_cons_of_mem _ hs)
    simp only [MainWindow.emitClicked, MainWindow.runClickSlot, Outcome.bind, ih hrest]
    simp only [MainWindow.onDialog, List.map_map, Outcome.returned.injEq,
      MainWindow.mk.injEq, true_and, and_true]
    apply List.map_congr_left
    intro d _
    by_cases hd : d.address = p
    · subst hd
      by_cases hm : ClickSlot.QDialog_show d.address ∈ rest <;> simp [hm]
    · have hne : p ≠ d.address := fun e => hd e.symm
      by_cases hm : ClickSlot.QDialog_show d.address ∈ rest <;> simp [hm, hd, hne]

/-- The dialog `NotifyOfNewVersion` created is shown once the notification
button is clicked (here for a button that had no connection before). -/
theorem NotifyOfNewVersion_dialog_shown_on_click (b : Build) (connectOk : Bool)
    (w : MainWindow) (p : Option Nat) (r : Results)
    (hs : r.wasCheckSuccessful = true) (ha : r.updateInfo.m_isUpdateAvailable = true)
    (hr : r.updateInfo.m_releases ≠ [])
    (hc : ∀ s ∈ w.ui.newVersionAvailablePushButton.clicked, ∃ q, s = ClickSlot.QDialog_show q) :
    ∃ w' w2, MainWindow.NotifyOfNewVersion w p r = .returned w'
      ∧ MainWindow.clickNewVersionAvailablePushButton b connectOk w' = .returned w2
      ∧ { address := w.freshAddress, parentIsMainWindow := true
          WA_DeleteOnClose := false, results := some r, shown := true } ∈ w2.dialogs := by
  obtain ⟨w', h, hd, hk⟩ := NotifyOfNewVersion_creates_hidden_dialog w p r hs ha hr
  have hall : ∀ s ∈ w'.ui.newVersionAvailablePushButton.clicked,
      ∃ q, s = ClickSlot.QDialog_show q := by
    intro s hsm
    rw [hk] at hsm
    rcases List.mem_append.mp hsm with h1 | h1
    · exact hc s h1
    · exact ⟨_, List.mem_singleton.mp h1⟩
  refine ⟨w', _, h, emitClicked_shows b connectOk _ hall w', ?_⟩
  simp only [hd, hk, List.map_append, List.map_cons, List.map_nil]
  apply List.mem_append_right
  simp

/-! ## The version components -/

/-- C10 fails on the code in a non-debug build: the manual path names the
identifiers `major`, `minor`, `patch`, `build`, not the constants `MAJOR`,
`MINOR`, `PATCH`, `BUILD` the two startup paths name.  In a build where those
identifiers denote 2, 3, 4, 5 the startup paths construct their worker with
1, 0, 0, 0 and the manual path constructs its worker with 2, 3, 4, 5. -/
theorem C10_manual_path_names_other_identifiers :
    releaseBuild.DEBUG = false
    ∧ startupVersion releaseBuild = (MAJOR, MINOR, PATCH, BUILD)
    ∧ startupVersion releaseBuild = (1, 0, 0, 0)
    ∧ manualVersion releaseBuild = (2, 3, 4, 5)
    ∧ manualVersion releaseBuild ≠ (MAJOR, MINOR, PATCH, BUILD)
    ∧ MainWindow.ManualCheckForUpdatesButtonClicked releaseBuild true sampleWindow
        = .returned { sampleWindow with
            threads := sampleWindow.threads ++
              [{ address := 8, major := 2, minor := 3, patch := 4, build := 5
                 CheckForUpdatesComplete := [.ShowResultsDialog]
                 started := [(".", "UpdateCheckerGUI-updates.json")] }]
            calls :=
              [.construct 8 2 3 4 5,
               .connectComplete 8 .ShowResultsDialog true,
               .StartCheckForUpdates 8 "." "UpdateCheckerGUI-updates.json"] } := by
  refine ⟨rfl, rfl, rfl, rfl, by decide, ?_⟩
  exact ManualCheckForUpdatesButtonClicked_connected releaseBuild sampleWindow

/-- In a debug build all three paths pass 0, 0, 0, 0; in a non-debug build the
two startup paths pass the constants of the file and the manual path passes
what `major`, `minor`, `patch`, `build` denote. -/
theorem version_components (b : Build) :
    (b.DEBUG = true → startupVersion b = (0, 0, 0, 0) ∧ manualVersion b = (0, 0, 0, 0))
    ∧ (b.DEBUG = false →
        startupVersion b = (1, 0, 0, 0)
        ∧ manualVersion b = (b.major, b.minor, b.patch, b.build)) := by
  constructor <;> intro h <;> simp [startupVersion, manualVersion, h, MAJOR, MINOR, PATCH, BUILD]

end UpdateCheckerGUI
